import Mathlib

/-!
Shallow embedding of the mad-rust mmo7 driver mapping engine
(src/main.rs and src/mapper.rs).

The embedding models one Mapper instance. Per-cycle side effects are made
explicit:
  - direct calls into the input-injection backend made by the report thread
    (mouse down/up, wheel scroll) become a list of `Effect` values in the
    order the calls happen;
  - token sequences sent to the macro-executor channel become `Send` values,
    tagged with the role (`down`, `up`, `rep`) of the StateToken field that
    was sent, so that firing events can be counted; the executor only ever
    receives the payload component;
  - the shared relative-movement accumulator is carried in the mapper state
    (the aggregator thread that drains it is outside this model);
  - the configuration store lookup, the global config epoch counter and the
    wall clock are passed in as explicit cycle inputs.

Machine integers are modelled as Nat (bytes, counters) and Int (the i32
movement accumulator; i32 wraparound is not modelled). The external
macro-spec tokenizer is an abstract parameter `tok : String -> StateToken`.
-/

/-- Modifier keys handled by the executor (util::tokenizer::Key, as matched
exhaustively by key_to_enigo in src/mapper.rs). -/
inductive Key
  | shift
  | control
  | alt
  | command
deriving DecidableEq

/-- Mouse-button variants carried by tokens (util::tokenizer::Button, as
matched exhaustively by emulate_token_vec in src/mapper.rs). -/
inductive Button
  | left
  | middle
  | right
  | scrollUp
  | scrollDown
  | scrollLeft
  | scrollRight
deriving DecidableEq

/-- Macro tokens (util::tokenizer::Token, as matched exhaustively by
emulate_token_vec in src/mapper.rs). -/
inductive Token
  | sequence (s : String)
  | unicode (s : String)
  | keyUp (k : Key)
  | keyDown (k : Key)
  | mouseUp (b : Button)
  | mouseDown (b : Button)
  | click (b : Button)
deriving DecidableEq

/-- Compiled macro program for one button in one context
(util::tokenizer::StateToken): the down, repeat and up token sequences.
The repeat field is named `rep` because `repeat` is reserved in Lean. -/
structure StateToken where
  down : List Token
  rep : List Token
  up : List Token
deriving DecidableEq

/-- StateToken::default(): all three sequences empty. -/
def StateToken.empty : StateToken := ⟨[], [], []⟩

/-- Mouse buttons of the injection backend (enigo::MouseButton variants the
driver uses). -/
inductive EMouseButton
  | left
  | middle
  | right
deriving DecidableEq

/-- One call into the input-injection backend (enigo). For mouseScrollY the
enigo convention is: a negative length scrolls up, a positive length scrolls
down, one unit per notch. -/
inductive Effect
  | mouseDown (b : EMouseButton)
  | mouseUp (b : EMouseButton)
  | mouseClick (b : EMouseButton)
  | mouseScrollY (length : Int)
  | mouseScrollX (length : Int)
  | keyClick (c : Char)
  | keySequence (s : String)
  | keyUp (k : Key)
  | keyDown (k : Key)
deriving DecidableEq

/-- Effects produced by executing one token
(the per-token match of emulate_token_vec, src/mapper.rs lines 528-559).
Key tokens go through key_to_enigo, which is a bijection between the
4 modifier keys and their enigo counterparts, so the Key value is kept. -/
def emulate_token (token : Token) : List Effect :=
  match token with
  | .sequence s => s.toList.map Effect.keyClick
  | .unicode s => [Effect.keySequence s]
  | .keyUp k => [Effect.keyUp k]
  | .keyDown k => [Effect.keyDown k]
  | .mouseUp b =>
    match b with
    | .left => [Effect.mouseUp EMouseButton.left]
    | .middle => [Effect.mouseUp EMouseButton.middle]
    | .right => [Effect.mouseUp EMouseButton.right]
    | _ => []
  | .mouseDown b =>
    match b with
    | .left => [Effect.mouseDown EMouseButton.left]
    | .middle => [Effect.mouseDown EMouseButton.middle]
    | .right => [Effect.mouseDown EMouseButton.right]
    | _ => []
  | .click b =>
    match b with
    | .left => [Effect.mouseClick EMouseButton.left]
    | .middle => [Effect.mouseClick EMouseButton.middle]
    | .right => [Effect.mouseClick EMouseButton.right]
    | .scrollUp => [Effect.mouseScrollY 1]
    | .scrollDown => [Effect.mouseScrollY (-1)]
    | .scrollLeft => [Effect.mouseScrollX 1]
    | .scrollRight => [Effect.mouseScrollX (-1)]

/-- fn emulate_token_vec (src/mapper.rs lines 518-561): execute the tokens of
one queued program in order. -/
def emulate_token_vec (token_vec : List Token) : List Effect :=
  (token_vec.map emulate_token).flatten

/-- One 8-byte HID report, the `buffer: [u8; 8]` of run_device
(src/main.rs line 318). Bytes are Nat; device reports keep every byte
below 256. -/
structure Report where
  byte0 : Nat
  byte1 : Nat
  byte2 : Nat
  byte3 : Nat
  byte4 : Nat
  byte5 : Nat
  byte6 : Nat
  byte7 : Nat
deriving DecidableEq

/-- enum Mode (src/mapper.rs lines 103-106). The payload is carried as
Fin 3 because update_mode only ever produces 0, 1 or 2 and get_state_token
indexes a [StateToken; 3] array with it. -/
inductive Mode
  | normal (n : Fin 3)
  | shift (n : Fin 3)
deriving DecidableEq

/-- Mapper::is_shift_mode (src/mapper.rs lines 434-439). -/
def is_shift_mode : Mode → Bool
  | .normal _ => false
  | .shift _ => true

/-- Mapper::absolute_mode (src/mapper.rs lines 441-446). -/
def absolute_mode : Mode → Fin 3
  | .normal n => n
  | .shift n => n

/-- Mapper::update_mode (src/mapper.rs lines 240-248): the new mode is
decided by the 3 low bits of byte 2; the source patterns 0|1|2 => Normal(m),
4|5|6 => Shift(m - 0b100), _ => Normal(0) are spelled case by case here so
that the payload lands in Fin 3. -/
def update_mode (buffer : Report) : Mode :=
  match buffer.byte2 &&& 0b111 with
  | 0 => Mode.normal 0
  | 1 => Mode.normal 1
  | 2 => Mode.normal 2
  | 4 => Mode.shift 0
  | 5 => Mode.shift 1
  | 6 => Mode.shift 2
  | _ => Mode.normal 0

/-- The 15 logical buttons of the ButtonState / ButtonConfigs records
(src/mapper.rs lines 67-83). -/
inductive LogicalButton
  | scroll_button
  | left_actionlock
  | right_actionlock
  | forwards_button
  | back_button
  | thumb_anticlockwise
  | thumb_clockwise
  | hat_top
  | hat_left
  | hat_right
  | hat_bottom
  | button_1
  | precision_aim
  | button_2
  | button_3
deriving DecidableEq

/-- Decoding of the per-button boolean state from the report, exactly the
ButtonState literal built at the top of Mapper::mapped_emulation
(src/mapper.rs lines 322-338). -/
def decode_button_state (buffer : Report) : LogicalButton → Bool
  | .back_button => decide (0 < buffer.byte0 &&& 8)
  | .forwards_button => decide (0 < buffer.byte0 &&& 16)
  | .button_1 => decide (0 < buffer.byte0 &&& 32)
  | .button_2 => decide (0 < buffer.byte0 &&& 64)
  | .button_3 => decide (0 < buffer.byte0 &&& 128)
  | .hat_top => decide (0 < buffer.byte1 &&& 1)
  | .hat_bottom => decide (0 < buffer.byte1 &&& 2)
  | .hat_left => decide (0 < buffer.byte1 &&& 4)
  | .hat_right => decide (0 < buffer.byte1 &&& 8)
  | .precision_aim => decide (0 < buffer.byte1 &&& 16)
  | .thumb_clockwise => decide (0 < buffer.byte1 &&& 32)
  | .thumb_anticlockwise => decide (0 < buffer.byte1 &&& 64)
  | .scroll_button => decide (0 < buffer.byte2 &&& 8)
  | .left_actionlock => decide (0 < buffer.byte2 &&& 16)
  | .right_actionlock => decide (0 < buffer.byte2 &&& 32)

/-- The fixed order in which Mapper::mapped_emulation evaluates the buttons
(the 15 emulate_button_config_token calls, src/mapper.rs lines 340-429). -/
def button_order : List LogicalButton :=
  [.back_button, .forwards_button, .button_1, .button_2, .button_3,
   .hat_top, .hat_bottom, .hat_left, .hat_right, .precision_aim,
   .thumb_clockwise, .thumb_anticlockwise, .scroll_button,
   .left_actionlock, .right_actionlock]

/-- struct ClickState (src/mapper.rs lines 61-65). -/
structure ClickState where
  left : Bool
  right : Bool
  middle : Bool
deriving DecidableEq

/-- Modelled from the spec: util::time::Timer is a dependency, not under
src/. Per spec section 3, each button has an independent debounce/repeat
timer with a period (50 ms default); per section 4.3 and the section 8
scenario, a check fires when the interval has elapsed since the last firing
and then restarts the interval. Time is in milliseconds. -/
structure Timer where
  interval : Nat
  last : Nat
deriving DecidableEq

/-- Modelled from the spec: Timer::check returns whether the interval has
elapsed at time `now`, and resets the timer when it has. -/
def Timer.check (t : Timer) (now : Nat) : Bool × Timer :=
  if t.last + t.interval ≤ now then (true, { t with last := now }) else (false, t)

/-- type ButtonConfig = [Vec<String>; 2] (src/main.rs line 26): one list of
macro-spec strings per shift state. -/
def ButtonConfig : Type := Fin 2 → List String

/-- struct ButtonConfigs (src/main.rs lines 29-45), indexed by the logical
button instead of 15 named fields. -/
def ButtonConfigs : Type := LogicalButton → ButtonConfig

/-- type ButtonConfigToken = [[StateToken; 3]; 2] (src/mapper.rs line 18). -/
def ButtonConfigToken : Type := Fin 2 → Fin 3 → StateToken

/-- struct ButtonConfigsToken (src/mapper.rs lines 21-37), indexed by the
logical button. -/
def ButtonConfigsToken : Type := LogicalButton → ButtonConfigToken

/-- ButtonConfigExt::tokenize (src/mapper.rs lines 492-516): every present
mode slot is compiled by the external tokenizer `tok`, missing slots stay
StateToken::default(). -/
def tokenize_button_config (tok : String → StateToken) (bc : ButtonConfig) :
    ButtonConfigToken :=
  fun mode_type_index mode_index =>
    match (bc mode_type_index).get? mode_index.val with
    | some config => tok config
    | none => StateToken.empty

/-- ButtonConfigsToken::from_config (src/mapper.rs lines 40-58). -/
def buttonConfigsToken_from_config (tok : String → StateToken)
    (button_configs : ButtonConfigs) : ButtonConfigsToken :=
  fun b => tokenize_button_config tok (button_configs b)

/-- The mutable per-device state of struct Mapper (src/mapper.rs
lines 108-121). mouse_relative_movement is the content of the shared
accumulator CondMutex; the channel and thread handles have no state. -/
structure MapperState where
  mode : Mode
  click_state : ClickState
  button_state : LogicalButton → Bool
  button_timer : LogicalButton → Timer
  button_configs_token : ButtonConfigsToken
  last_mouses_config_state_id : Nat
  mouse_relative_movement : Int × Int

/-- Mapper::get_state_token (src/mapper.rs lines 460-462):
button_config_token[is_shift_mode as usize][absolute_mode as usize]. -/
def get_state_token (mode : Mode) (button_config_token : ButtonConfigToken) :
    StateToken :=
  button_config_token (if is_shift_mode mode then 1 else 0) (absolute_mode mode)

/-- Which field of a StateToken a channel send carried: the send at
src/mapper.rs line 475 (down), line 477 (up) or line 482 (repeat). -/
inductive SendRole
  | down
  | up
  | rep
deriving DecidableEq

/-- One send on the emulation-worker channel: the role tag identifies which
of the three send sites fired; the channel itself only carries the token
list. -/
def Send : Type := SendRole × List Token

/-- Mapper::emulate_button_config_token (src/mapper.rs lines 464-484):
returns the updated timer and the channel sends, in order. The timer check
runs unconditionally (it is the left operand of the source conjunction), so
the timer resets on elapse even when the button is not held. -/
def emulate_button_config_token (mode : Mode)
    (button_config_token : ButtonConfigToken) (button_timer : Timer)
    (now : Nat) (previous_button_state current_button_state : Bool) :
    Timer × List Send :=
  let state_token := get_state_token mode button_config_token
  let edge_sends : List Send :=
    if current_button_state ≠ previous_button_state then
      if current_button_state then [(SendRole.down, state_token.down)]
      else [(SendRole.up, state_token.up)]
    else []
  let checked := button_timer.check now
  let repeat_sends : List Send :=
    if checked.1 && current_button_state then [(SendRole.rep, state_token.rep)]
    else []
  (checked.2, edge_sends ++ repeat_sends)

/-- One emulate_button_config_token call of Mapper::mapped_emulation for
button b: its own config slot, its own timer, its remembered state and its
newly decoded state. -/
def button_cycle (m : MapperState) (new_state : LogicalButton → Bool)
    (now : Nat) (b : LogicalButton) : Timer × List Send :=
  emulate_button_config_token m.mode (m.button_configs_token b)
    (m.button_timer b) now (m.button_state b) (new_state b)

/-- Mapper::mapped_emulation (src/mapper.rs lines 321-432). Each of the 15
sequential calls only reads the mode, its own config slot, its own timer and
its own previous/new state, so the loop is presented per button; the global
channel order is recovered by flattening over button_order
(mapped_sends below). -/
def mapped_emulation (m : MapperState) (buffer : Report) (now : Nat) :
    MapperState × (LogicalButton → List Send) :=
  let new_state := decode_button_state buffer
  ({ m with
      button_state := new_state,
      button_timer := fun b => (button_cycle m new_state now b).1 },
   fun b => (button_cycle m new_state now b).2)

/-- The channel content of one mapped_emulation pass in submission order:
the per-button sends concatenated in the fixed evaluation order. -/
def mapped_sends (per_button : LogicalButton → List Send) : List Send :=
  (button_order.map per_button).flatten

/-- The two-complement decode of a relative-movement byte
(src/mapper.rs lines 298-307): raw values of 128 and above mean raw - 256. -/
def decode_delta (byte : Nat) : Int :=
  if byte < 128 then (byte : Int) else (byte : Int) - 256

/-- Mapper::basic_emulation (src/mapper.rs lines 250-319): left/right/middle
click edges (middle gated on the scroll-button slot being an all-empty
program), accumulation of the X/Y deltas, and the wheel byte. Returns the
new state and the direct enigo calls in program order. -/
def basic_emulation (m : MapperState) (buffer : Report) :
    MapperState × List Effect :=
  let click_state : ClickState :=
    { left := decide (0 < buffer.byte0 &&& 1)
      right := decide (0 < buffer.byte0 &&& 2)
      middle := decide (0 < buffer.byte0 &&& 4) }
  let middle_button_state_token :=
    get_state_token m.mode (m.button_configs_token LogicalButton.scroll_button)
  let left_effects : List Effect :=
    if click_state.left ≠ m.click_state.left then
      if click_state.left then [Effect.mouseDown EMouseButton.left]
      else [Effect.mouseUp EMouseButton.left]
    else []
  let middle_enabled : Bool :=
    middle_button_state_token.down.isEmpty
      && middle_button_state_token.rep.isEmpty
      && middle_button_state_token.up.isEmpty
  let middle_effects : List Effect :=
    if middle_enabled = true ∧ click_state.middle ≠ m.click_state.middle then
      if click_state.middle then [Effect.mouseDown EMouseButton.middle]
      else [Effect.mouseUp EMouseButton.middle]
    else []
  let new_middle : Bool :=
    if middle_enabled then click_state.middle else m.click_state.middle
  let right_effects : List Effect :=
    if click_state.right ≠ m.click_state.right then
      if click_state.right then [Effect.mouseDown EMouseButton.right]
      else [Effect.mouseUp EMouseButton.right]
    else []
  let wheel_effects : List Effect :=
    (if buffer.byte7 = 1 then [Effect.mouseScrollY (-1)] else [])
      ++ (if buffer.byte7 = 255 then [Effect.mouseScrollY 1] else [])
  ({ m with
      click_state :=
        { left := click_state.left, right := click_state.right,
          middle := new_middle },
      mouse_relative_movement :=
        (m.mouse_relative_movement.1 + decode_delta buffer.byte3,
         m.mouse_relative_movement.2 + decode_delta buffer.byte5) },
   left_effects ++ middle_effects ++ right_effects ++ wheel_effects)

/-- Mapper::config_has_change (src/mapper.rs lines 448-458): compare the
loaded global state id with the remembered one, remember the new value on a
difference, and report whether it differed. -/
def config_has_change (m : MapperState) (mouses_config_state_id : Nat) :
    Bool × MapperState :=
  if m.last_mouses_config_state_id ≠ mouses_config_state_id then
    (true, { m with last_mouses_config_state_id := mouses_config_state_id })
  else (false, m)

/-- The external inputs of one mapper cycle: the report buffer, the loaded
value of the global config state id, the store entry for this mapper serial
(used only when a reload triggers), and the current time for the timers. -/
structure CycleInput where
  buffer : Report
  mouses_config_state_id : Nat
  store_config : ButtonConfigs
  now : Nat

/-- The reload prologue shared by Mapper::emulate and
Mapper::emulate_only_mapped (src/mapper.rs lines 219-223 and 231-235):
on a config change, retokenize this serial ButtonConfigs from the store. -/
def apply_config_reload (tok : String → StateToken) (m : MapperState)
    (mouses_config_state_id : Nat) (store_config : ButtonConfigs) :
    MapperState :=
  let checked := config_has_change m mouses_config_state_id
  if checked.1 then
    { checked.2 with
        button_configs_token := buttonConfigsToken_from_config tok store_config }
  else checked.2

/-- Mapper::emulate (src/mapper.rs lines 218-228): reload check, then
update_mode, then basic_emulation, then mapped_emulation. Returns the final
state, the direct enigo calls and the per-button channel sends. -/
def emulate (tok : String → StateToken) (m : MapperState)
    (input : CycleInput) :
    MapperState × List Effect × (LogicalButton → List Send) :=
  let m1 := apply_config_reload tok m input.mouses_config_state_id
    input.store_config
  let m2 := { m1 with mode := update_mode input.buffer }
  let basic := basic_emulation m2 input.buffer
  let mapped := mapped_emulation basic.1 input.buffer input.now
  (mapped.1, basic.2, mapped.2)

/-- Mapper::emulate_only_mapped (src/mapper.rs lines 230-238): reload check,
then mapped_emulation only; no direct enigo call is made. -/
def emulate_only_mapped (tok : String → StateToken) (m : MapperState)
    (input : CycleInput) :
    MapperState × List Effect × (LogicalButton → List Send) :=
  let m1 := apply_config_reload tok m input.mouses_config_state_id
    input.store_config
  let mapped := mapped_emulation m1 input.buffer input.now
  (mapped.1, [], mapped.2)

/-- The two read outcomes of the run_device loop (src/main.rs
lines 325-340): a successful read runs emulate, a timeout runs
emulate_only_mapped. -/
inductive PassKind
  | fullPass
  | timeoutPass
deriving DecidableEq

/-- One loop iteration of run_device, dispatching on the read outcome. -/
def run_cycle (tok : String → StateToken) (kind : PassKind) (m : MapperState)
    (input : CycleInput) :
    MapperState × List Effect × (LogicalButton → List Send) :=
  match kind with
  | .fullPass => emulate tok m input
  | .timeoutPass => emulate_only_mapped tok m input

/-- A ButtonConfigs with every macro-spec list empty
(ButtonConfigs::default() in src/main.rs). -/
def empty_button_configs : ButtonConfigs := fun _ _ => []

/-- Mapper::new (src/mapper.rs lines 124-216), with the store lookup made
explicit: the source indexes the config map with the serial number
(line 130), which panics when the key is absent; the panic is modelled as
none. Timers start with the 50 ms interval at creation time `now`. -/
def mapper_new (tok : String → StateToken)
    (store : String → Option ButtonConfigs) (mouses_config_state_id : Nat)
    (serial_number : String) (now : Nat) : Option MapperState :=
  match store serial_number with
  | none => none
  | some button_configs =>
    some
      { mode := Mode.normal 0
        click_state := { left := false, right := false, middle := false }
        button_state := fun _ => false
        button_timer := fun _ => { interval := 50, last := now }
        button_configs_token := buttonConfigsToken_from_config tok button_configs
        last_mouses_config_state_id := mouses_config_state_id
        mouse_relative_movement := (0, 0) }

/-- Mapper::emulate with the store lookup of its reload path made explicit
(src/mapper.rs line 221 indexes the config map, panicking when the serial is
absent; the panic is modelled as none). The store is only consulted when the
epoch check reports a change. -/
def emulate_checked (tok : String → StateToken)
    (store : String → Option ButtonConfigs) (serial_number : String)
    (m : MapperState) (buffer : Report)
    (mouses_config_state_id now : Nat) :
    Option (MapperState × List Effect × (LogicalButton → List Send)) :=
  if m.last_mouses_config_state_id ≠ mouses_config_state_id then
    match store serial_number with
    | none => none
    | some bc =>
      some (emulate tok m
        { buffer := buffer, mouses_config_state_id := mouses_config_state_id,
          store_config := bc, now := now })
  else
    some (emulate tok m
      { buffer := buffer, mouses_config_state_id := mouses_config_state_id,
        store_config := empty_button_configs, now := now })

/-- Mapper::emulate_only_mapped with the store lookup of its reload path made
explicit (src/mapper.rs line 233), as in emulate_checked. -/
def emulate_only_mapped_checked (tok : String → StateToken)
    (store : String → Option ButtonConfigs) (serial_number : String)
    (m : MapperState) (buffer : Report)
    (mouses_config_state_id now : Nat) :
    Option (MapperState × List Effect × (LogicalButton → List Send)) :=
  if m.last_mouses_config_state_id ≠ mouses_config_state_id then
    match store serial_number with
    | none => none
    | some bc =>
      some (emulate_only_mapped tok m
        { buffer := buffer, mouses_config_state_id := mouses_config_state_id,
          store_config := bc, now := now })
  else
    some (emulate_only_mapped tok m
      { buffer := buffer, mouses_config_state_id := mouses_config_state_id,
        store_config := empty_button_configs, now := now })

/-- Fold of full passes over a list of cycle inputs. -/
def run_full (tok : String → StateToken) (m : MapperState) :
    List CycleInput → MapperState
  | [] => m
  | input :: rest => run_full tok (emulate tok m input).1 rest

/-- Number of sends with a given role tag in a send list. -/
def role_count (role : SendRole) (sends : List Send) : Nat :=
  sends.countP fun s => decide (s.1 = role)

/-- Total number of sends with a given role produced for button b over a
trace of full passes. -/
def trace_role_count (tok : String → StateToken) (role : SendRole)
    (b : LogicalButton) : MapperState → List CycleInput → Nat
  | _, [] => 0
  | m, input :: rest =>
    role_count role ((emulate tok m input).2.2 b)
      + trace_role_count tok role b (emulate tok m input).1 rest

/-- Number of false-to-true transitions in a boolean sequence, given the
state before the sequence. -/
def rising_count (prev : Bool) : List Bool → Nat
  | [] => 0
  | cur :: rest => (if prev = false ∧ cur = true then 1 else 0) + rising_count cur rest

/-- Number of true-to-false transitions in a boolean sequence, given the
state before the sequence. -/
def falling_count (prev : Bool) : List Bool → Nat
  | [] => 0
  | cur :: rest => (if prev = true ∧ cur = false then 1 else 0) + falling_count cur rest

/-- The (dx, dy) decoded from one report: byte 3 is X, byte 5 is Y. -/
def decoded_delta (r : Report) : Int × Int :=
  (decode_delta r.byte3, decode_delta r.byte5)

/-- Componentwise sum of the decoded deltas of a list of cycle inputs. -/
def sum_deltas : List CycleInput → Int × Int
  | [] => (0, 0)
  | input :: rest =>
    ((decoded_delta input.buffer).1 + (sum_deltas rest).1,
     (decoded_delta input.buffer).2 + (sum_deltas rest).2)

/-- The operating-context table exactly as the specification states it, as a
function of the 3 low bits of byte 2: values 0, 1, 2 give Normal of the
value; 4, 5, 6 give Shift of the value minus 4; 3 and 7 fall back to
Normal 0. -/
def mode_spec : Nat → Mode
  | 0 => Mode.normal 0
  | 1 => Mode.normal 1
  | 2 => Mode.normal 2
  | 3 => Mode.normal 0
  | 4 => Mode.shift 0
  | 5 => Mode.shift 1
  | 6 => Mode.shift 2
  | _ => Mode.normal 0

/-- Scroll actions among the backend calls. -/
def is_scroll_effect : Effect → Bool
  | .mouseScrollY _ => true
  | .mouseScrollX _ => true
  | _ => false

/-- Vertical-scroll calls among the backend calls. -/
def is_scroll_y_effect : Effect → Bool
  | .mouseScrollY _ => true
  | _ => false

/-- Middle-button calls among the backend calls. -/
def is_middle_click_effect : Effect → Bool
  | .mouseDown .middle => true
  | .mouseUp .middle => true
  | .mouseClick .middle => true
  | _ => false

/-- One upward scroll notch: enigo mouse_scroll_y with a negative length
scrolls up. -/
def scroll_up_notch : Effect := Effect.mouseScrollY (-1)

/-- One downward scroll notch: enigo mouse_scroll_y with a positive length
scrolls down. -/
def scroll_down_notch : Effect := Effect.mouseScrollY 1

/-! Helper lemmas: component characterizations of one cycle. -/

theorem apply_config_reload_eq (tok : String → StateToken) (m : MapperState)
    (mouses_config_state_id : Nat) (store_config : ButtonConfigs) :
    apply_config_reload tok m mouses_config_state_id store_config =
      { m with
          button_configs_token :=
            if m.last_mouses_config_state_id ≠ mouses_config_state_id then
              buttonConfigsToken_from_config tok store_config
            else m.button_configs_token,
          last_mouses_config_state_id := mouses_config_state_id } := by
  unfold apply_config_reload config_has_change
  by_cases h : m.last_mouses_config_state_id ≠ mouses_config_state_id <;> simp [h]
  rw [not_ne_iff] at h
  rw [← h]

theorem emulate_button_state (tok : String → StateToken) (m : MapperState)
    (input : CycleInput) :
    (emulate tok m input).1.button_state = decode_button_state input.buffer := rfl

theorem emulate_mode (tok : String → StateToken) (m : MapperState)
    (input : CycleInput) :
    (emulate tok m input).1.mode = update_mode input.buffer := rfl

theorem emulate_sends_eq (tok : String → StateToken) (m : MapperState)
    (input : CycleInput) (b : LogicalButton) :
    (emulate tok m input).2.2 b =
      (emulate_button_config_token (update_mode input.buffer)
        ((apply_config_reload tok m input.mouses_config_state_id
            input.store_config).button_configs_token b)
        (m.button_timer b) input.now (m.button_state b)
        (decode_button_state input.buffer b)).2 := by
  simp [emulate, mapped_emulation, button_cycle, basic_emulation,
    apply_config_reload_eq]

theorem emulate_only_mapped_sends_eq (tok : String → StateToken)
    (m : MapperState) (input : CycleInput) (b : LogicalButton) :
    (emulate_only_mapped tok m input).2.2 b =
      (emulate_button_config_token m.mode
        ((apply_config_reload tok m input.mouses_config_state_id
            input.store_config).button_configs_token b)
        (m.button_timer b) input.now (m.button_state b)
        (decode_button_state input.buffer b)).2 := by
  simp [emulate_only_mapped, mapped_emulation, button_cycle,
    apply_config_reload_eq]

theorem ebct_down_count (mode : Mode) (bct : ButtonConfigToken) (t : Timer)
    (now : Nat) (prev cur : Bool) :
    role_count SendRole.down
        (emulate_button_config_token mode bct t now prev cur).2 =
      if prev = false ∧ cur = true then 1 else 0 := by
  unfold emulate_button_config_token Timer.check role_count
  cases prev <;> cases cur <;> split_ifs <;>
    simp_all [List.countP_append, List.countP_cons, List.countP_nil]

theorem ebct_up_count (mode : Mode) (bct : ButtonConfigToken) (t : Timer)
    (now : Nat) (prev cur : Bool) :
    role_count SendRole.up
        (emulate_button_config_token mode bct t now prev cur).2 =
      if prev = true ∧ cur = false then 1 else 0 := by
  unfold emulate_button_config_token Timer.check role_count
  cases prev <;> cases cur <;> split_ifs <;>
    simp_all [List.countP_append, List.countP_cons, List.countP_nil]

theorem ebct_rep_count (mode : Mode) (bct : ButtonConfigToken) (t : Timer)
    (now : Nat) (prev cur : Bool) :
    role_count SendRole.rep
        (emulate_button_config_token mode bct t now prev cur).2 =
      if t.last + t.interval ≤ now ∧ cur = true then 1 else 0 := by
  unfold emulate_button_config_token Timer.check role_count
  cases prev <;> cases cur <;>
    split_ifs <;>
    simp_all [List.countP_append, List.countP_cons, List.countP_nil]

theorem emulate_down_count (tok : String → StateToken) (m : MapperState)
    (input : CycleInput) (b : LogicalButton) :
    role_count SendRole.down ((emulate tok m input).2.2 b) =
      if m.button_state b = false ∧ decode_button_state input.buffer b = true
      then 1 else 0 := by
  rw [emulate_sends_eq, ebct_down_count]

theorem emulate_up_count (tok : String → StateToken) (m : MapperState)
    (input : CycleInput) (b : LogicalButton) :
    role_count SendRole.up ((emulate tok m input).2.2 b) =
      if m.button_state b = true ∧ decode_button_state input.buffer b = false
      then 1 else 0 := by
  rw [emulate_sends_eq, ebct_up_count]

theorem trace_down_eq (tok : String → StateToken) (b : LogicalButton) :
    ∀ (inputs : List CycleInput) (m : MapperState),
      trace_role_count tok SendRole.down b m inputs =
        rising_count (m.button_state b)
          (inputs.map fun input => decode_button_state input.buffer b)
  | [], _ => rfl
  | input :: rest, m => by
    rw [trace_role_count, List.map_cons, rising_count, emulate_down_count,
      trace_down_eq tok b rest (emulate tok m input).1, emulate_button_state]

theorem trace_up_eq (tok : String → StateToken) (b : LogicalButton) :
    ∀ (inputs : List CycleInput) (m : MapperState),
      trace_role_count tok SendRole.up b m inputs =
        falling_count (m.button_state b)
          (inputs.map fun input => decode_button_state input.buffer b)
  | [], _ => rfl
  | input :: rest, m => by
    rw [trace_role_count, List.map_cons, falling_count, emulate_up_count,
      trace_up_eq tok b rest (emulate tok m input).1, emulate_button_state]

theorem emulate_last_id (tok : String → StateToken) (m : MapperState)
    (input : CycleInput) :
    (emulate tok m input).1.last_mouses_config_state_id =
      input.mouses_config_state_id := by
  simp [emulate, mapped_emulation, basic_emulation, apply_config_reload_eq]

theorem emulate_bct (tok : String → StateToken) (m : MapperState)
    (input : CycleInput) :
    (emulate tok m input).1.button_configs_token =
      if m.last_mouses_config_state_id ≠ input.mouses_config_state_id then
        buttonConfigsToken_from_config tok input.store_config
      else m.button_configs_token := by
  simp [emulate, mapped_emulation, basic_emulation, apply_config_reload_eq]

theorem emulate_only_mapped_last_id (tok : String → StateToken)
    (m : MapperState) (input : CycleInput) :
    (emulate_only_mapped tok m input).1.last_mouses_config_state_id =
      input.mouses_config_state_id := by
  simp [emulate_only_mapped, mapped_emulation, apply_config_reload_eq]

theorem emulate_only_mapped_bct (tok : String → StateToken) (m : MapperState)
    (input : CycleInput) :
    (emulate_only_mapped tok m input).1.button_configs_token =
      if m.last_mouses_config_state_id ≠ input.mouses_config_state_id then
        buttonConfigsToken_from_config tok input.store_config
      else m.button_configs_token := by
  simp [emulate_only_mapped, mapped_emulation, apply_config_reload_eq]

theorem emulate_only_mapped_mode (tok : String → StateToken) (m : MapperState)
    (input : CycleInput) :
    (emulate_only_mapped tok m input).1.mode = m.mode := by
  simp [emulate_only_mapped, mapped_emulation, apply_config_reload_eq]

theorem emulate_only_mapped_click (tok : String → StateToken)
    (m : MapperState) (input : CycleInput) :
    (emulate_only_mapped tok m input).1.click_state = m.click_state := by
  simp [emulate_only_mapped, mapped_emulation, apply_config_reload_eq]

theorem emulate_only_mapped_acc (tok : String → StateToken) (m : MapperState)
    (input : CycleInput) :
    (emulate_only_mapped tok m input).1.mouse_relative_movement =
      m.mouse_relative_movement := by
  simp [emulate_only_mapped, mapped_emulation, apply_config_reload_eq]

theorem emulate_acc (tok : String → StateToken) (m : MapperState)
    (input : CycleInput) :
    (emulate tok m input).1.mouse_relative_movement =
      (m.mouse_relative_movement.1 + decode_delta input.buffer.byte3,
       m.mouse_relative_movement.2 + decode_delta input.buffer.byte5) := by
  simp [emulate, mapped_emulation, basic_emulation, apply_config_reload_eq]

theorem run_full_acc (tok : String → StateToken) :
    ∀ (inputs : List CycleInput) (m : MapperState),
      (run_full tok m inputs).mouse_relative_movement =
        (m.mouse_relative_movement.1 + (sum_deltas inputs).1,
         m.mouse_relative_movement.2 + (sum_deltas inputs).2)
  | [], m => by simp [run_full, sum_deltas]
  | input :: rest, m => by
    rw [run_full, run_full_acc tok rest (emulate tok m input).1, emulate_acc,
      sum_deltas]
    simp only [decoded_delta, Prod.mk.injEq]
    constructor <;> ring

theorem emulate_effects_eq (tok : String → StateToken) (m : MapperState)
    (input : CycleInput) :
    (emulate tok m input).2.1 =
      (basic_emulation
        { apply_config_reload tok m input.mouses_config_state_id
            input.store_config with
          mode := update_mode input.buffer } input.buffer).2 := rfl

theorem basic_filter_middle (m : MapperState) (buffer : Report) :
    (basic_emulation m buffer).2.filter is_middle_click_effect =
      (if (let st := get_state_token m.mode
              (m.button_configs_token LogicalButton.scroll_button)
           st.down.isEmpty && st.rep.isEmpty && st.up.isEmpty) = true
          ∧ decide (0 < buffer.byte0 &&& 4) ≠ m.click_state.middle then
        if decide (0 < buffer.byte0 &&& 4) = true then
          [Effect.mouseDown EMouseButton.middle]
        else [Effect.mouseUp EMouseButton.middle]
      else []) := by
  unfold basic_emulation
  simp only [List.filter_append]
  split_ifs <;> simp_all [is_middle_click_effect]

theorem basic_middle_state (m : MapperState) (buffer : Report) :
    (basic_emulation m buffer).1.click_state.middle =
      (if (let st := get_state_token m.mode
              (m.button_configs_token LogicalButton.scroll_button)
           st.down.isEmpty && st.rep.isEmpty && st.up.isEmpty) = true then
        decide (0 < buffer.byte0 &&& 4)
      else m.click_state.middle) := by
  unfold basic_emulation
  split_ifs <;> simp_all

theorem basic_filter_scroll (m : MapperState) (buffer : Report) :
    (basic_emulation m buffer).2.filter is_scroll_effect =
      (if buffer.byte7 = 1 then [scroll_up_notch] else [])
        ++ (if buffer.byte7 = 255 then [scroll_down_notch] else []) := by
  unfold basic_emulation
  simp only [List.filter_append]
  split_ifs <;> simp_all [is_scroll_effect, scroll_up_notch, scroll_down_notch]

theorem basic_filter_scroll_y (m : MapperState) (buffer : Report) :
    (basic_emulation m buffer).2.filter is_scroll_y_effect =
      (if buffer.byte7 = 1 then [Effect.mouseScrollY (-1)] else [])
        ++ (if buffer.byte7 = 255 then [Effect.mouseScrollY 1] else []) := by
  unfold basic_emulation
  simp only [List.filter_append]
  split_ifs <;> simp_all [is_scroll_y_effect]

theorem emulate_store_irrel (tok : String → StateToken) (m : MapperState)
    (buffer : Report) (mouses_config_state_id now : Nat)
    (x y : ButtonConfigs) (h : m.last_mouses_config_state_id = mouses_config_state_id) :
    emulate tok m ⟨buffer, mouses_config_state_id, x, now⟩ =
      emulate tok m ⟨buffer, mouses_config_state_id, y, now⟩ := by
  simp [emulate, apply_config_reload_eq, h]

/-! The claim theorems. -/

/-- Claim C1: for every logical button and every sequence of processed
reports, the down sequence is enqueued exactly once per false-to-true
transition of the decoded state and the up sequence exactly once per
true-to-false transition (so consecutive reports decoding the same state
enqueue neither): the trace totals equal the transition counts, and within
one cycle the down (resp. up) send fires exactly when the remembered state
and the newly decoded state form the corresponding edge. -/
theorem claim1_edge_firing (tok : String → StateToken) (b : LogicalButton)
    (m : MapperState) (inputs : List CycleInput) (input : CycleInput) :
    (trace_role_count tok SendRole.down b m inputs =
        rising_count (m.button_state b)
          (inputs.map fun i => decode_button_state i.buffer b))
    ∧ (trace_role_count tok SendRole.up b m inputs =
        falling_count (m.button_state b)
          (inputs.map fun i => decode_button_state i.buffer b))
    ∧ (role_count SendRole.down ((emulate tok m input).2.2 b) =
        if m.button_state b = false ∧ decode_button_state input.buffer b = true
        then 1 else 0)
    ∧ (role_count SendRole.up ((emulate tok m input).2.2 b) =
        if m.button_state b = true ∧ decode_button_state input.buffer b = false
        then 1 else 0) :=
  ⟨trace_down_eq tok b inputs m, trace_up_eq tok b inputs m,
   emulate_down_count tok m input b, emulate_up_count tok m input b⟩

/-- Claim C2: on a full pass the resulting operating context depends only on
the 3 low bits of byte 2, and follows the table: 0, 1, 2 give Normal of the
value, 4, 5, 6 give Shift of the value minus 4, and 3 and 7 give Normal 0. -/
theorem claim2_mode_table (tok : String → StateToken) (m : MapperState)
    (input : CycleInput) :
    (emulate tok m input).1.mode = mode_spec (input.buffer.byte2 % 8) := by
  show update_mode input.buffer = mode_spec (input.buffer.byte2 % 8)
  unfold update_mode
  rw [show input.buffer.byte2 &&& 0b111 = input.buffer.byte2 % 8 by
    have h := Nat.and_pow_two_sub_one_eq_mod input.buffer.byte2 3
    norm_num at h
    exact h]
  have h8 : input.buffer.byte2 % 8 < 8 := Nat.mod_lt _ (by norm_num)
  set k := input.buffer.byte2 % 8 with hk
  interval_cases k <;> rfl

/-- Claim C3: on every cycle, full pass or timeout pass, and for every
logical button, the repeat sequence is enqueued exactly once if and only if
the repeat timer interval has elapsed and the newly decoded state is held,
independently of any down/up edge in the same cycle. -/
theorem claim3_repeat_firing (tok : String → StateToken) (kind : PassKind)
    (m : MapperState) (input : CycleInput) (b : LogicalButton) :
    role_count SendRole.rep ((run_cycle tok kind m input).2.2 b) =
      if (m.button_timer b).last + (m.button_timer b).interval ≤ input.now
          ∧ decode_button_state input.buffer b = true then 1 else 0 := by
  cases kind
  · show role_count SendRole.rep ((emulate tok m input).2.2 b) = _
    rw [emulate_sends_eq, ebct_rep_count]
  · show role_count SendRole.rep ((emulate_only_mapped tok m input).2.2 b) = _
    rw [emulate_only_mapped_sends_eq, ebct_rep_count]

/-- Claim C4: on every cycle (emulate and emulate_only_mapped), the mapper
reloads and retokenizes the ButtonConfigs from the store exactly when the
observed global config state id differs from the remembered one, after the
check the remembered id equals the observed value, and nothing else changes
the compiled configs. -/
theorem claim4_config_reload (tok : String → StateToken) (m : MapperState)
    (input : CycleInput) :
    ((emulate tok m input).1.last_mouses_config_state_id =
        input.mouses_config_state_id
      ∧ (emulate tok m input).1.button_configs_token =
          (if m.last_mouses_config_state_id ≠ input.mouses_config_state_id then
            buttonConfigsToken_from_config tok input.store_config
          else m.button_configs_token))
    ∧ ((emulate_only_mapped tok m input).1.last_mouses_config_state_id =
        input.mouses_config_state_id
      ∧ (emulate_only_mapped tok m input).1.button_configs_token =
          (if m.last_mouses_config_state_id ≠ input.mouses_config_state_id then
            buttonConfigsToken_from_config tok input.store_config
          else m.button_configs_token)) :=
  ⟨⟨emulate_last_id tok m input, emulate_bct tok m input⟩,
   ⟨emulate_only_mapped_last_id tok m input,
    emulate_only_mapped_bct tok m input⟩⟩

/-- Claim C5: on a full pass a middle-click edge in byte 0 bit 2 produces a
middle mouse down/up call exactly when the scroll-button slot token for the
current context has empty down, repeat and up sequences; with a non-empty
program no middle call is made and the remembered middle state stays put. -/
theorem claim5_middle_click_gate (tok : String → StateToken) (m : MapperState)
    (input : CycleInput) :
    ((emulate tok m input).2.1.filter is_middle_click_effect =
      (if (let st := get_state_token (emulate tok m input).1.mode
              ((emulate tok m input).1.button_configs_token
                LogicalButton.scroll_button)
           st.down.isEmpty && st.rep.isEmpty && st.up.isEmpty) = true
          ∧ decide (0 < input.buffer.byte0 &&& 4) ≠ m.click_state.middle then
        if decide (0 < input.buffer.byte0 &&& 4) = true then
          [Effect.mouseDown EMouseButton.middle]
        else [Effect.mouseUp EMouseButton.middle]
      else []))
    ∧ (emulate tok m input).1.click_state.middle =
        (if (let st := get_state_token (emulate tok m input).1.mode
                ((emulate tok m input).1.button_configs_token
                  LogicalButton.scroll_button)
             st.down.isEmpty && st.rep.isEmpty && st.up.isEmpty) = true then
          decide (0 < input.buffer.byte0 &&& 4)
        else m.click_state.middle) := by
  constructor
  · rw [emulate_effects_eq, basic_filter_middle]
    simp [emulate, mapped_emulation, basic_emulation, apply_config_reload_eq]
  · show (basic_emulation
        { apply_config_reload tok m input.mouses_config_state_id
            input.store_config with
          mode := update_mode input.buffer } input.buffer).1.click_state.middle = _
    rw [basic_middle_state]
    simp [emulate, mapped_emulation, basic_emulation, apply_config_reload_eq]

/-- Claim C6: full passes add the decoded two-complement deltas of bytes 3
and 5 componentwise into the shared accumulator, so N reports before a drain
leave the accumulator at the start value plus the summed delta, which equals
what a single report carrying the summed delta leaves. -/
theorem claim6_accumulator_sum (tok : String → StateToken) (m : MapperState)
    (inputs : List CycleInput) (single : CycleInput)
    (h : decoded_delta single.buffer = sum_deltas inputs) :
    ((run_full tok m inputs).mouse_relative_movement =
        (m.mouse_relative_movement.1 + (sum_deltas inputs).1,
         m.mouse_relative_movement.2 + (sum_deltas inputs).2))
    ∧ (run_full tok m [single]).mouse_relative_movement =
        (run_full tok m inputs).mouse_relative_movement := by
  refine ⟨run_full_acc tok inputs m, ?_⟩
  rw [run_full_acc tok inputs m, run_full_acc tok [single] m]
  simp [sum_deltas, h]

/-- Claim C7: on every full pass, byte 7 value 1 produces exactly one upward
scroll notch (the enigo mouse_scroll_y call with length -1), value 255
exactly one downward notch (length 1), and every other value produces no
scroll action at all. -/
theorem claim7_wheel_notches (tok : String → StateToken) (m : MapperState)
    (input : CycleInput) :
    (emulate tok m input).2.1.filter is_scroll_effect =
      (if input.buffer.byte7 = 1 then [scroll_up_notch] else [])
        ++ (if input.buffer.byte7 = 255 then [scroll_down_notch] else []) := by
  rw [emulate_effects_eq, basic_filter_scroll]

/-- Claim C8: a timeout pass leaves the mode, the click state and the shared
movement accumulator untouched and makes no direct backend call (hence no
scroll or motion), while the mapped-button evaluation still runs against the
buffer. -/
theorem claim8_timeout_pass_frame (tok : String → StateToken)
    (m : MapperState) (input : CycleInput) :
    (emulate_only_mapped tok m input).1.mode = m.mode
    ∧ (emulate_only_mapped tok m input).1.click_state = m.click_state
    ∧ (emulate_only_mapped tok m input).1.mouse_relative_movement =
        m.mouse_relative_movement
    ∧ (emulate_only_mapped tok m input).2.1 = ([] : List Effect)
    ∧ (emulate_only_mapped tok m input).1.button_state =
        decode_button_state input.buffer :=
  ⟨emulate_only_mapped_mode tok m input, emulate_only_mapped_click tok m input,
   emulate_only_mapped_acc tok m input, rfl, rfl⟩

/-- Claim C9: Mapper::new and the hot-reload path index the store by serial
number, so they succeed exactly when the serial is present (for the reload
path: whenever the epoch actually differs); with the serial absent and a
pending epoch change the cycle hits the panicking index (modelled none)
instead of degrading to a no-op, and with the serial present the checked
cycle agrees with the total cycle. -/
theorem claim9_store_index_totality (tok : String → StateToken)
    (store : String → Option ButtonConfigs) (serial_number : String)
    (m : MapperState) (buffer : Report) (mouses_config_state_id now : Nat) :
    ((mapper_new tok store mouses_config_state_id serial_number now).isSome =
        (store serial_number).isSome)
    ∧ ((emulate_checked tok store serial_number m buffer
          mouses_config_state_id now).isSome =
        (decide (m.last_mouses_config_state_id = mouses_config_state_id)
          || (store serial_number).isSome))
    ∧ ((emulate_only_mapped_checked tok store serial_number m buffer
          mouses_config_state_id now).isSome =
        (decide (m.last_mouses_config_state_id = mouses_config_state_id)
          || (store serial_number).isSome))
    ∧ (∀ bc, store serial_number = some bc →
        emulate_checked tok store serial_number m buffer
            mouses_config_state_id now =
          some (emulate tok m
            ⟨buffer, mouses_config_state_id, bc, now⟩)) := by
  refine ⟨?_, ?_, ?_, ?_⟩
  · unfold mapper_new
    cases store serial_number <;> rfl
  · unfold emulate_checked
    by_cases h : m.last_mouses_config_state_id ≠ mouses_config_state_id
    · cases hs : store serial_number <;> simp [h, hs]
    · rw [not_ne_iff] at h
      simp [h]
  · unfold emulate_only_mapped_checked
    by_cases h : m.last_mouses_config_state_id ≠ mouses_config_state_id
    · cases hs : store serial_number <;> simp [h, hs]
    · rw [not_ne_iff] at h
      simp [h]
  · intro bc hbc
    unfold emulate_checked
    by_cases h : m.last_mouses_config_state_id ≠ mouses_config_state_id
    · simp [h, hbc]
    · rw [not_ne_iff] at h
      simp [h]
      exact emulate_store_irrel tok m buffer mouses_config_state_id now
        empty_button_configs bc h

/-- Claim C10: the two scroll paths use opposite sign conventions: a full
pass with byte 7 = 1 (wheel up) calls mouse_scroll_y with -1 while a
Click(ScrollUp) macro token calls it with +1, and symmetrically byte 7 = 255
gives +1 while Click(ScrollDown) gives -1, so a wheel-up report and a
ScrollUp token scroll in opposite directions. -/
theorem claim10_scroll_sign_mismatch (tok : String → StateToken)
    (m : MapperState) (input : CycleInput) :
    ((emulate tok m input).2.1.filter is_scroll_y_effect =
      (if input.buffer.byte7 = 1 then [Effect.mouseScrollY (-1)] else [])
        ++ (if input.buffer.byte7 = 255 then [Effect.mouseScrollY 1] else []))
    ∧ emulate_token_vec [Token.click Button.scrollUp] = [Effect.mouseScrollY 1]
    ∧ emulate_token_vec [Token.click Button.scrollDown] =
        [Effect.mouseScrollY (-1)] := by
  refine ⟨?_, rfl, rfl⟩
  rw [emulate_effects_eq, basic_filter_scroll_y]

/-! Concrete instances used by the witnesses. -/

/-- A tokenizer that compiles every macro-spec string to the empty program. -/
def tok0 : String → StateToken := fun _ => StateToken.empty

/-- A sample serial number. -/
def serial0 : String := "s"

/-- The all-zero report. -/
def report0 : Report := ⟨0, 0, 0, 0, 0, 0, 0, 0⟩

/-- A concrete mapper state: freshly created, remembered state id 0. -/
def mapper1 : MapperState :=
  { mode := Mode.normal 0
    click_state := { left := false, right := false, middle := false }
    button_state := fun _ => false
    button_timer := fun _ => { interval := 50, last := 0 }
    button_configs_token := fun _ _ _ => StateToken.empty
    last_mouses_config_state_id := 0
    mouse_relative_movement := (0, 0) }

/-- A store with no serial present. -/
def store_none : String → Option ButtonConfigs := fun _ => none

/-- A store mapping every serial to the default ButtonConfigs. -/
def store_one : String → Option ButtonConfigs := fun _ => some empty_button_configs

/-- A full-pass input with delta (1, 2). -/
def input1 : CycleInput :=
  { buffer := { report0 with byte3 := 1, byte5 := 2 }
    mouses_config_state_id := 0
    store_config := empty_button_configs
    now := 0 }

/-- A full-pass input with delta (3, 4). -/
def input2 : CycleInput :=
  { buffer := { report0 with byte3 := 3, byte5 := 4 }
    mouses_config_state_id := 0
    store_config := empty_button_configs
    now := 0 }

/-- A full-pass input carrying the summed delta (4, 6) in one report. -/
def single0 : CycleInput :=
  { buffer := { report0 with byte3 := 4, byte5 := 6 }
    mouses_config_state_id := 0
    store_config := empty_button_configs
    now := 0 }

/-- Witness for claim C6 at deltas (1,2) and (3,4) against one report with
delta (4,6). -/
theorem claim6_accumulator_sum_witness :
    ((run_full tok0 mapper1 [input1, input2]).mouse_relative_movement =
        (mapper1.mouse_relative_movement.1 + (sum_deltas [input1, input2]).1,
         mapper1.mouse_relative_movement.2 + (sum_deltas [input1, input2]).2))
    ∧ (run_full tok0 mapper1 [single0]).mouse_relative_movement =
        (run_full tok0 mapper1 [input1, input2]).mouse_relative_movement :=
  claim6_accumulator_sum tok0 mapper1 [input1, input2] single0 (by decide)

/-- Witness for claim C9: with the serial absent, creation reports no value
and a cycle that must reload hits the modelled panic; with the serial
present, the checked cycle agrees with the total cycle. -/
theorem claim9_store_index_totality_witness :
    ((mapper_new tok0 store_none 1 serial0 0).isSome = false)
    ∧ ((emulate_checked tok0 store_none serial0 mapper1 report0 1 0).isSome =
        false)
    ∧ (emulate_checked tok0 store_one serial0 mapper1 report0 1 0 =
        some (emulate tok0 mapper1 ⟨report0, 1, empty_button_configs, 0⟩)) := by
  refine ⟨?_, ?_, ?_⟩
  · have h :=
      (claim9_store_index_totality tok0 store_none serial0 mapper1 report0 1 0).1
    simpa [store_none] using h
  · have h :=
      (claim9_store_index_totality tok0 store_none serial0 mapper1 report0
        1 0).2.1
    simpa [store_none, mapper1] using h
  · exact
      (claim9_store_index_totality tok0 store_one serial0 mapper1 report0
        1 0).2.2.2 empty_button_configs rfl
